import Mathlib

/-!
Verification development for the chat route handler of the repository
(the Next.js route file with `buildModelMessages`, `POST` and `DELETE`,
given as src/unnamed/part_000) and the model catalogue
(src/unnamed/part_001).

External collaborators (network fetch, pdf text extraction, the auth
session, the database query layer, the streaming SDK) are modelled as
explicit inputs: every fallible call is a field of a world structure
holding its outcome, and the handler is a pure function from that world
to its HTTP response together with the ordered list of durable side
effects (database writes, model invocation) it performs.
-/

namespace ChatRoute

/-- Roles a chat message can carry (`msg.role` in the route file). -/
inductive Role
  | user
  | assistant
  | system
  | tool
deriving DecidableEq, Repr

/-- One part of a UI chat message: a text part, a file-reference part
(url + media type), or any other structured part (tool-call,
tool-result, ...), which `buildModelMessages` ignores. -/
inductive Part
  | text (t : String)
  | file (url : String) (mediaType : String)
  | other
deriving DecidableEq, Repr

/-- The text carried by a text part, `none` for any other part.  Models
the source's `parts.filter((p) => p.type === 'text').map((p) => p.text)`. -/
def Part.textOf : Part → Option String
  | .text t => some t
  | _ => none

/-- A UI chat message (the `ChatMessage` shape used by the route). -/
structure ChatMessage where
  id : String
  role : Role
  parts : List Part
deriving DecidableEq, Repr

/-- A provider content block pushed into `contentParts` by
`buildModelMessages`: either `{ type: 'text', text }` or
`{ type: 'image_url', image_url: { url } }`. -/
inductive ContentBlock
  | text (t : String)
  | image_url (url : String)
deriving DecidableEq, Repr

/-- The `content` field of a provider message: non-user messages carry a
flat string, user messages carry an ordered list of content blocks. -/
inductive ModelContent
  | flat (s : String)
  | blocks (bs : List ContentBlock)
deriving DecidableEq, Repr

/-- A provider-ready message produced by `buildModelMessages`. -/
structure ModelMessage where
  role : Role
  content : ModelContent
deriving DecidableEq, Repr

/-- External effects used by attachment normalization.
`fetch url` models `fetchArrayBuffer` (route file, lines 71-75): `none`
covers both a network failure and a non-ok response, which the source
turns into a thrown error; `some bytes` is the downloaded ArrayBuffer.
`pdfParse` models the dynamically imported `pdf-parse` call: outer
`none` is a thrown extraction error, the inner option is the possibly
absent `res.text` field (`res.text || ''` in the source).
`base64` models `Buffer.from(buf).toString('base64')`, an external
encoding treated as opaque. -/
structure Env where
  fetch : String → Option (List Nat)
  pdfParse : List Nat → Option (Option String)
  base64 : List Nat → String

/-- JS `s.substring(0, n)`: the first `n` characters of `s` (the whole
string when it is shorter). -/
def substring0 (s : String) (n : Nat) : String :=
  (s.toList.take n).asString

/-- JS `s.startsWith(p)`, spelled over character lists. -/
def jsStartsWith (s p : String) : Bool :=
  p.toList.isPrefixOf s.toList

/-- The synthetic text wrapped around extracted PDF text (route file,
line 119). -/
def summaryPrompt (textContent : String) : String :=
  "Please summarize the following document:\n\n" ++ textContent

/-- Normalization of one part of a user message, returning the content
blocks it contributes (route file, lines 88-126).  A text part yields a
text block; an `image/*` file yields an inline data url on successful
fetch and nothing on failure (the source catches and logs); an
`application/pdf` file yields the truncated summary prompt on success
and nothing when the fetch or the extraction fails; every other part is
dropped. -/
def normalizeUserPart (env : Env) (p : Part) : List ContentBlock :=
  match p with
  | .text t => [.text t]
  | .file url mediaType =>
    if jsStartsWith mediaType "image/" then
      match env.fetch url with
      | some bytes =>
        [.image_url ("data:" ++ mediaType ++ ";base64," ++ env.base64 bytes)]
      | none => []
    else if mediaType = "application/pdf" then
      match env.fetch url with
      | some bytes =>
        match env.pdfParse bytes with
        | some r => [.text (summaryPrompt (substring0 (r.getD "") 12000))]
        | none => []
      | none => []
    else []
  | .other => []

/-- Conversion of one UI message (one iteration of the loop in
`buildModelMessages`, route file lines 80-129): a non-user message is
flattened to the concatenation of its text parts; a user message
becomes one provider message holding the blocks contributed by each of
its parts in order. -/
def convertMessage (env : Env) (msg : ChatMessage) : ModelMessage :=
  if msg.role = Role.user then
    { role := Role.user
    , content := ModelContent.blocks (msg.parts.flatMap (normalizeUserPart env)) }
  else
    { role := msg.role
    , content := ModelContent.flat (String.join (msg.parts.filterMap Part.textOf)) }

/-- `buildModelMessages` (route file, lines 77-132): the loop pushes
exactly one provider message per input message. -/
def buildModelMessages (env : Env) (uiMessages : List ChatMessage) : List ModelMessage :=
  uiMessages.map (convertMessage env)

/-- A provider usage summary as it may appear on the consume result:
each recognized field name is optionally present (route file, lines
296-301 and 350-356 try `inputTokens ?? promptTokens ?? prompt_tokens`
and the analogous chains for the other two counts). -/
structure RawUsage where
  inputTokens : Option Nat
  promptTokens : Option Nat
  prompt_tokens : Option Nat
  outputTokens : Option Nat
  completionTokens : Option Nat
  completion_tokens : Option Nat
  totalTokens : Option Nat
  total_tokens : Option Nat
deriving DecidableEq, Repr

/-- The mutable `usageData` holder (route file, lines 245-249). -/
structure UsageData where
  promptTokens : Nat
  completionTokens : Nat
  totalTokens : Nat
deriving DecidableEq, Repr

/-- One assignment block `usageData.x = usage.a ?? usage.b ?? usage.c ?? 0`
applied to a present usage object. -/
def applyUsage (u : RawUsage) : UsageData :=
  { promptTokens := (u.inputTokens <|> u.promptTokens <|> u.prompt_tokens).getD 0
  , completionTokens := (u.outputTokens <|> u.completionTokens <|> u.completion_tokens).getD 0
  , totalTokens := (u.totalTokens <|> u.total_tokens).getD 0 }

/-- The value `consumeStream()` resolves to, as far as usage extraction
inspects it: `res?.usage`, `res?.data?.usage` and `res?.metadata?.usage`.
The `Except` wrapping at use sites models rejection of the promise. -/
structure ConsumeResult where
  usage : Option RawUsage
  dataUsage : Option RawUsage
  metadataUsage : Option RawUsage
deriving DecidableEq, Repr

/-- `usageData` after the then-handler attached in `execute` ran (route
file, lines 292-307): it reads only `res?.usage`, and a rejected promise
leaves the zero initialisation in place. -/
def usageAfterConsume (cr : Except Unit ConsumeResult) : UsageData :=
  match cr with
  | .ok res =>
    match res.usage with
    | some u => applyUsage u
    | none => { promptTokens := 0, completionTokens := 0, totalTokens := 0 }
  | .error _ => { promptTokens := 0, completionTokens := 0, totalTokens := 0 }

/-- `usageData` after `onFinish` awaited the consume promise and re-ran
extraction over `res?.usage || res?.data?.usage || res?.metadata?.usage`
(route file, lines 332-360); an awaited rejection is caught and keeps
the earlier value. -/
def finalUsageData (cr : Except Unit ConsumeResult) : UsageData :=
  match cr with
  | .ok res =>
    match res.usage <|> res.dataUsage <|> res.metadataUsage with
    | some u => applyUsage u
    | none => usageAfterConsume cr
  | .error _ => usageAfterConsume cr

/-- The claim-relevant arguments handed to `streamText` (route file,
lines 257-286): model id, normalized messages, `stopWhen: stepCountIs(5)`
and `experimental_activeTools`. -/
structure StreamTextConfig where
  model : String
  messages : List ModelMessage
  stopWhenStepCount : Nat
  activeTools : List String
deriving DecidableEq, Repr

/-- Construction of the `streamText` arguments: the reasoning variant
gets an empty active tool set, every other model the four listed tools;
the step budget is `stepCountIs(5)` unconditionally. -/
def mkStreamTextConfig (selectedChatModel : String) (messages : List ModelMessage) :
    StreamTextConfig :=
  { model := selectedChatModel
  , messages := messages
  , stopWhenStepCount := 5
  , activeTools :=
      if selectedChatModel = "chat-model-reasoning" then []
      else ["getWeather", "updateDocument", "requestSuggestions", "webSearch"] }

/-- Documented SDK semantics of `experimental_activeTools` together with
`stopWhen: stepCountIs(n)`: a tool call requested by the model executes
only if the tool is in the active set, and at most `n` tool-invocation
steps run in one turn. -/
def runToolSteps (cfg : StreamTextConfig) (requested : List String) : List String :=
  (requested.filter (fun t => cfg.activeTools.contains t)).take cfg.stopWhenStepCount

/-- An error thrown by a collaborator call: either a `ChatSDKError`
carrying its code, or any other (generic) exception. -/
inductive Thrown
  | sdk (code : String)
  | generic
deriving DecidableEq, Repr

/-- A durable side effect performed by a handler, in execution order:
database writes, the model invocation, the chat deletion. -/
inductive Event
  | saveChat
  | saveUserMessage
  | createStreamId
  | modelInvoke (cfg : StreamTextConfig)
  | saveAssistantMessages
  | saveUsageLog (promptTokens completionTokens totalTokens : Nat)
  | deleteChat
deriving DecidableEq, Repr

/-- Whether an event is the model invocation. -/
def Event.isModelInvoke : Event → Bool
  | .modelInvoke _ => true
  | _ => false

/-- The HTTP response of the POST handler: a `ChatSDKError` response
carrying its code, the plain 429 JSON response of the daily request
limit, the streamed response, or no response at all (the handler runs
off the end of its catch block and returns `undefined`). -/
inductive Response
  | sdkError (code : String)
  | quota429
  | stream (cfg : StreamTextConfig)
  | noResponse
deriving DecidableEq, Repr

/-- An authenticated session (`session.user`). -/
structure Session where
  userId : String
  userType : String
deriving DecidableEq, Repr

/-- A chat row as the handlers read it. -/
structure Chat where
  id : String
  userId : String
deriving DecidableEq, Repr

/-- The validated POST body (`postRequestBodySchema`). -/
structure PostRequestBody where
  id : String
  message : ChatMessage
  selectedChatModel : String
  selectedVisibilityType : String
deriving DecidableEq, Repr

/-- Outcomes of every collaborator call the POST handler makes, in the
order the source performs them.  `parsedBody = none` covers both a JSON
parse failure and a schema violation.  `entitlements` is the external
entitlements table (`entitlementsByUserType[userType].maxMessagesPerDay`).
`dailyLimit` is `Number(process.env.DAILY_REQUEST_LIMIT ?? '100')`.
`messagesFromDb` carries the prior messages already converted to UI
messages (`convertToUIMessages` is an external pure conversion). -/
structure PostWorld where
  parsedBody : Option PostRequestBody
  session : Option Session
  entitlements : String → Nat
  messageCountResult : Except Thrown Nat
  usageCountResult : Except Thrown Nat
  dailyLimit : Nat
  chatLookup : Except Thrown (Option Chat)
  titleResult : Except Thrown String
  saveChatResult : Except Thrown Unit
  messagesFromDb : Except Thrown (List ChatMessage)
  saveUserMessageResult : Except Thrown Unit
  createStreamIdResult : Except Thrown Unit
  env : Env
  consumeResult : Except Unit ConsumeResult
  saveAssistantResult : Except Thrown Unit
  saveUsageLogResult : Except Thrown Unit

/-- The side effects of the `onFinish` callback (route file, lines
319-377): it first awaits `saveMessages` for the drained assistant/tool
batch (a failure there aborts the callback), then extracts usage and
attempts `saveUsageLog` inside its own try/catch, so a usage-log
failure is swallowed after the messages are already saved. -/
def onFinishTrace (w : PostWorld) : List Event :=
  match w.saveAssistantResult with
  | .error _ => []
  | .ok _ =>
    match w.saveUsageLogResult with
    | .ok _ =>
      [Event.saveAssistantMessages,
       Event.saveUsageLog (finalUsageData w.consumeResult).promptTokens
         (finalUsageData w.consumeResult).completionTokens
         (finalUsageData w.consumeResult).totalTokens]
    | .error _ => [Event.saveAssistantMessages]

/-- The tail of the try block once the chat row is settled (route file,
lines 213-393): load prior messages, build the model messages, persist
the new user message, create the stream id, then stream; the stream's
model invocation and the `onFinish` effects are appended to the trace.
`evs0` holds the effects already performed (the chat creation, when it
happened). -/
def streamPhase (w : PostWorld) (body : PostRequestBody) (evs0 : List Event) :
    Except (Thrown × List Event) (Response × List Event) :=
  match w.messagesFromDb with
  | .error t => .error (t, evs0)
  | .ok dbMessages =>
    match w.saveUserMessageResult with
    | .error t => .error (t, evs0)
    | .ok _ =>
      match w.createStreamIdResult with
      | .error t => .error (t, evs0 ++ [Event.saveUserMessage])
      | .ok _ =>
        .ok (Response.stream
               (mkStreamTextConfig body.selectedChatModel
                 (buildModelMessages w.env (dbMessages ++ [body.message]))),
             evs0 ++
               [Event.saveUserMessage, Event.createStreamId,
                Event.modelInvoke
                  (mkStreamTextConfig body.selectedChatModel
                    (buildModelMessages w.env (dbMessages ++ [body.message])))] ++
               onFinishTrace w)

/-- The try block of the POST handler (route file, lines 144-393):
auth check, tier message-count ceiling (strict `>`), best-effort usage
count (a query failure is caught and treated as zero), daily request
ceiling (`>=`), chat lookup with creation or ownership check, then the
streaming phase.  An `.error` value is an exception escaping the try
block, paired with the effects performed before it was thrown. -/
def postTry (w : PostWorld) (body : PostRequestBody) :
    Except (Thrown × List Event) (Response × List Event) :=
  match w.session with
  | none => .ok (Response.sdkError "unauthorized:chat", [])
  | some session =>
    match w.messageCountResult with
    | .error t => .error (t, [])
    | .ok messageCount =>
      if messageCount > w.entitlements session.userType then
        .ok (Response.sdkError "rate_limit:chat", [])
      else if (match w.usageCountResult with | .ok n => n | .error _ => 0) ≥ w.dailyLimit then
        .ok (Response.quota429, [])
      else
        match w.chatLookup with
        | .error t => .error (t, [])
        | .ok none =>
          match w.titleResult with
          | .error t => .error (t, [])
          | .ok _ =>
            match w.saveChatResult with
            | .error t => .error (t, [])
            | .ok _ => streamPhase w body [Event.saveChat]
        | .ok (some chat) =>
          if chat.userId ≠ session.userId then
            .ok (Response.sdkError "forbidden:chat", [])
          else
            streamPhase w body []

/-- The catch block of the POST handler (route file, lines 394-398): a
`ChatSDKError` is turned into its structured response; any other error
falls through and the handler returns `undefined`. -/
def catchHandler : Thrown × List Event → Response × List Event
  | (Thrown.sdk code, evs) => (Response.sdkError code, evs)
  | (Thrown.generic, evs) => (Response.noResponse, evs)

/-- The POST handler (route file, lines 134-399): body parsing/validation
first (its own try/catch returning `bad_request:api`), then the guarded
try block. -/
def POST (w : PostWorld) : Response × List Event :=
  match w.parsedBody with
  | none => (Response.sdkError "bad_request:api", [])
  | some body =>
    match postTry w body with
    | .ok r => r
    | .error e => catchHandler e

/-- Outcomes of the collaborator calls of the DELETE handler. -/
structure DeleteWorld where
  idParam : Option String
  session : Option Session
  chatLookup : Option Chat

/-- The DELETE handler's result: a `ChatSDKError` response, the 200 JSON
response with the deleted record, or an uncaught TypeError from
dereferencing `chat.userId` when `getChatById` found no row. -/
inductive DeleteResult
  | sdkError (code : String)
  | jsonOk
  | uncaughtTypeError
deriving DecidableEq, Repr

/-- The DELETE handler (route file, lines 401-424).  There is no
try/catch and no not-found branch: when the chat lookup returns nothing
the field access `chat.userId` throws. -/
def DELETE (w : DeleteWorld) : DeleteResult × List Event :=
  match w.idParam with
  | none => (DeleteResult.sdkError "bad_request:api", [])
  | some _ =>
    match w.session with
    | none => (DeleteResult.sdkError "unauthorized:chat", [])
    | some session =>
      match w.chatLookup with
      | none => (DeleteResult.uncaughtTypeError, [])
      | some chat =>
        if chat.userId ≠ session.userId then
          (DeleteResult.sdkError "forbidden:chat", [])
        else
          (DeleteResult.jsonOk, [Event.deleteChat])

/-- The effect trace carried by a try-block outcome, whether it returned
or threw. -/
def outTrace : Except (Thrown × List Event) (Response × List Event) → List Event
  | .ok (_, evs) => evs
  | .error (_, evs) => evs

/-- Shape invariant of every trace the POST handler can produce: either
the run never invoked the model (and then also never wrote the
assistant batch), or the trace is an optional chat creation, the user
message write, the stream-id write, the model invocation, and then the
`onFinish` effects. -/
def GoodTrace (tr : List Event) : Prop :=
  (tr.any Event.isModelInvoke = false ∧ Event.saveAssistantMessages ∉ tr) ∨
  (∃ evs0 cfg fin,
    tr = evs0 ++ [Event.saveUserMessage, Event.createStreamId, Event.modelInvoke cfg] ++ fin
    ∧ (evs0 = [] ∨ evs0 = [Event.saveChat])
    ∧ (fin = [] ∨ fin = [Event.saveAssistantMessages]
        ∨ ∃ p c t, fin = [Event.saveAssistantMessages, Event.saveUsageLog p c t]))

/-- A usage object none of whose recognized field names is present. -/
def RawUsage.unrecognized (u : RawUsage) : Prop :=
  u.inputTokens = none ∧ u.promptTokens = none ∧ u.prompt_tokens = none
  ∧ u.outputTokens = none ∧ u.completionTokens = none ∧ u.completion_tokens = none
  ∧ u.totalTokens = none ∧ u.total_tokens = none

/-- The provider usage summary is absent or carries no recognized field:
the consume promise rejected, or no usage object is found under any of
the three paths, or the object found has none of the recognized field
names. -/
def usageUnparseable (cr : Except Unit ConsumeResult) : Prop :=
  match cr with
  | .error _ => True
  | .ok res =>
    match res.usage <|> res.dataUsage <|> res.metadataUsage with
    | none => True
    | some u => u.unrecognized

/-- An environment in which every attachment fetch fails. -/
def okEnv : Env :=
  { fetch := fun _ => none, pdfParse := fun _ => none, base64 := fun _ => "" }

/-- A consume result carrying no usage object under any path. -/
def okConsume : ConsumeResult :=
  { usage := none, dataUsage := none, metadataUsage := none }

/-- A fully successful world: valid body, authenticated session of type
"guest" with a tier ceiling of 2 messages, zero historical counts,
existing chat owned by the caller, and all writes succeeding. -/
def baseWorld : PostWorld :=
  { parsedBody := some
      { id := "c1"
      , message := { id := "m1", role := Role.user, parts := [] }
      , selectedChatModel := "chat-model"
      , selectedVisibilityType := "private" }
  , session := some { userId := "u1", userType := "guest" }
  , entitlements := fun _ => 2
  , messageCountResult := .ok 0
  , usageCountResult := .ok 0
  , dailyLimit := 100
  , chatLookup := .ok (some { id := "c1", userId := "u1" })
  , titleResult := .ok "title"
  , saveChatResult := .ok ()
  , messagesFromDb := .ok []
  , saveUserMessageResult := .ok ()
  , createStreamIdResult := .ok ()
  , env := okEnv
  , consumeResult := .ok okConsume
  , saveAssistantResult := .ok ()
  , saveUsageLogResult := .ok () }

/-- A user exactly at the tier ceiling: 2 messages counted in the last
24 hours against a ceiling of 2. -/
def atCeilingWorld : PostWorld :=
  { baseWorld with messageCountResult := .ok 2 }

/-- A user strictly above the tier ceiling: 3 messages against 2. -/
def aboveCeilingWorld : PostWorld :=
  { baseWorld with messageCountResult := .ok 3 }

/-- A world whose chat-creation title call throws a generic (non
`ChatSDKError`) exception before the stream opens. -/
def genericThrowWorld : PostWorld :=
  { baseWorld with chatLookup := .ok none, titleResult := .error Thrown.generic }

/-- A world whose chat lookup throws a `ChatSDKError` before the stream
opens. -/
def sdkThrowWorld : PostWorld :=
  { baseWorld with chatLookup := .error (Thrown.sdk "bad_request:database") }

/-- A world with a malformed request body. -/
def malformedBodyWorld : PostWorld :=
  { baseWorld with parsedBody := none }

/-- A user message whose only parts are an image attachment (whose fetch
will fail under `okEnv`) and a structural part. -/
def failingAttachmentMsg : ChatMessage :=
  { id := "m1", role := Role.user, parts := [Part.file "u" "image/jpeg", Part.other] }

/-- An assistant message with interleaved text and structural parts. -/
def assistantMsg : ChatMessage :=
  { id := "m2", role := Role.assistant, parts := [Part.text "a", Part.other, Part.text "b"] }

/-- A 12,001-character extracted PDF text. -/
def longPdfText : String :=
  String.mk (List.replicate 12001 'a')

/-- An environment whose PDF extraction yields `longPdfText`. -/
def longPdfEnv : Env :=
  { fetch := fun _ => some [], pdfParse := fun _ => some (some longPdfText), base64 := fun _ => "" }

/-- A DELETE request for an id that matches no chat row. -/
def missingChatDeleteWorld : DeleteWorld :=
  { idParam := some "nope"
  , session := some { userId := "u1", userType := "guest" }
  , chatLookup := none }

@[simp]
theorem isModelInvoke_saveChat : Event.saveChat.isModelInvoke = false := rfl

@[simp]
theorem isModelInvoke_saveUserMessage : Event.saveUserMessage.isModelInvoke = false := rfl

@[simp]
theorem isModelInvoke_createStreamId : Event.createStreamId.isModelInvoke = false := rfl

@[simp]
theorem isModelInvoke_modelInvoke (cfg : StreamTextConfig) :
    (Event.modelInvoke cfg).isModelInvoke = true := rfl

@[simp]
theorem isModelInvoke_saveAssistantMessages :
    Event.saveAssistantMessages.isModelInvoke = false := rfl

@[simp]
theorem isModelInvoke_saveUsageLog (p c t : Nat) :
    (Event.saveUsageLog p c t).isModelInvoke = false := rfl

@[simp]
theorem isModelInvoke_deleteChat : Event.deleteChat.isModelInvoke = false := rfl

/-- C8: a malformed body (JSON parse failure or schema violation) is
answered with the `bad_request:api` structured response before anything
else runs, so the effect trace is empty: no database write of any kind
occurs. -/
theorem C8_malformed_body_no_writes (w : PostWorld) (h : w.parsedBody = none) :
    POST w = (Response.sdkError "bad_request:api", []) := by
  simp [POST, h]

/-- C8 witness at a concrete world. -/
theorem C8_malformed_body_no_writes_witness :
    POST malformedBodyWorld = (Response.sdkError "bad_request:api", []) :=
  C8_malformed_body_no_writes malformedBodyWorld rfl

/-- C9: a DELETE whose id matches no chat row dereferences the missing
record's `userId` and throws an uncaught TypeError: no typed error
response is produced and nothing is deleted (there is no not-found
branch and no try/catch in the DELETE handler). -/
theorem C9_delete_missing_chat_throws (w : DeleteWorld) (i : String) (s : Session)
    (hi : w.idParam = some i) (hs : w.session = some s) (hc : w.chatLookup = none) :
    DELETE w = (DeleteResult.uncaughtTypeError, []) := by
  simp [DELETE, hi, hs, hc]

/-- C9 witness at a concrete world. -/
theorem C9_delete_missing_chat_throws_witness :
    DELETE missingChatDeleteWorld = (DeleteResult.uncaughtTypeError, []) :=
  C9_delete_missing_chat_throws missingChatDeleteWorld "nope"
    { userId := "u1", userType := "guest" } rfl rfl rfl

/-- C1 counterexample: a user exactly at the tier ceiling (2 messages
counted against a ceiling of 2) is NOT rejected — the source compares
with strict `>` — and the request goes on to invoke the model, so the
claim's "at or above" boundary is wrong. -/
theorem C1_counterexample :
    (POST atCeilingWorld).1 ≠ Response.sdkError "rate_limit:chat"
    ∧ (POST atCeilingWorld).2.any Event.isModelInvoke = true
    ∧ atCeilingWorld.messageCountResult = Except.ok (atCeilingWorld.entitlements "guest") := by
  refine ⟨by decide, by decide, rfl⟩

/-- C1 (amended): for every user whose 24h message count is strictly
above the tier ceiling, the POST returns the `rate_limit:chat`
structured error with an empty effect trace: no model invocation and no
chat, message, stream-id or usage-log write. -/
theorem C1_rate_limit_strictly_above (w : PostWorld) (body : PostRequestBody) (s : Session)
    (mc : Nat) (hb : w.parsedBody = some body) (hs : w.session = some s)
    (hmc : w.messageCountResult = .ok mc) (hgt : w.entitlements s.userType < mc) :
    POST w = (Response.sdkError "rate_limit:chat", []) := by
  simp [POST, postTry, hb, hs, hmc, hgt]

/-- C1 witness at a concrete world: 3 messages against a ceiling of 2. -/
theorem C1_rate_limit_strictly_above_witness :
    POST aboveCeilingWorld = (Response.sdkError "rate_limit:chat", []) :=
  C1_rate_limit_strictly_above aboveCeilingWorld
    { id := "c1"
    , message := { id := "m1", role := Role.user, parts := [] }
    , selectedChatModel := "chat-model"
    , selectedVisibilityType := "private" }
    { userId := "u1", userType := "guest" } 3 rfl rfl rfl (by decide)

/-- C3 counterexample: a generic (non-`ChatSDKError`) exception thrown
before the stream opens — here the title-generation model call — slips
past the `instanceof ChatSDKError` check in the catch block, so the
handler returns `undefined` rather than any structured HTTP error
response. -/
theorem C3_counterexample :
    POST genericThrowWorld = (Response.noResponse, [])
    ∧ genericThrowWorld.titleResult = Except.error Thrown.generic := by
  refine ⟨by decide, rfl⟩

/-- C3 (amended): every error thrown in the try block before the stream
opens reaches the single catch block; it is returned as a structured
HTTP error response exactly when it is a `ChatSDKError` (whose code the
response carries), while any other error produces no response at all. -/
theorem C3_pre_stream_errors_catch (w : PostWorld) (body : PostRequestBody)
    (t : Thrown) (evs : List Event) (hb : w.parsedBody = some body)
    (ht : postTry w body = .error (t, evs)) :
    POST w = catchHandler (t, evs)
    ∧ (∀ c, t = Thrown.sdk c → (POST w).1 = Response.sdkError c)
    ∧ (t = Thrown.generic → (POST w).1 = Response.noResponse) := by
  have h1 : POST w = catchHandler (t, evs) := by simp [POST, hb, ht]
  refine ⟨h1, ?_, ?_⟩
  · intro c hc
    subst hc
    rw [h1]
    rfl
  · intro hc
    subst hc
    rw [h1]
    rfl

/-- C3 witness at a concrete world: a `ChatSDKError` thrown by the chat
lookup is returned as its structured response. -/
theorem C3_pre_stream_errors_catch_witness :
    (POST sdkThrowWorld).1 = Response.sdkError "bad_request:database" := by
  have H := C3_pre_stream_errors_catch sdkThrowWorld
    { id := "c1"
    , message := { id := "m1", role := Role.user, parts := [] }
    , selectedChatModel := "chat-model"
    , selectedVisibilityType := "private" }
    (Thrown.sdk "bad_request:database") [] rfl rfl
  exact H.2.1 "bad_request:database" rfl

/-- C4 counterexample: a user message whose only attachment is an image
whose fetch fails is normalized WITHOUT any error: the attachment is
silently omitted (the provider message has an empty content-block list)
instead of failing with `AttachmentFetchError`. -/
theorem C4_counterexample :
    buildModelMessages okEnv [failingAttachmentMsg]
      = [{ role := Role.user, content := ModelContent.blocks [] }]
    ∧ okEnv.fetch "u" = none
    ∧ failingAttachmentMsg.parts = [Part.file "u" "image/jpeg", Part.other] := by
  refine ⟨by decide, rfl, rfl⟩

/-- C4 (amended): an `image/*` file part whose fetch does not succeed is
skipped — it contributes no content block — and normalization carries on
rather than failing. -/
theorem C4_failed_image_fetch_skipped (env : Env) (url mediaType : String)
    (him : jsStartsWith mediaType "image/" = true) (hf : env.fetch url = none) :
    normalizeUserPart env (Part.file url mediaType) = [] := by
  simp [normalizeUserPart, him, hf]

/-- C4 witness at a concrete input. -/
theorem C4_failed_image_fetch_skipped_witness :
    normalizeUserPart okEnv (Part.file "u" "image/png") = [] :=
  C4_failed_image_fetch_skipped okEnv "u" "image/png" (by decide) rfl

/-- C5: the reasoning variant is configured with an empty active tool
set, so no requested tool call can ever execute, whatever the messages
request; every other model keeps the `stepCountIs(5)` budget, so at most
5 sequential tool-invocation steps run. -/
theorem C5_reasoning_no_tools_budget_five :
    (∀ msgs, (mkStreamTextConfig "chat-model-reasoning" msgs).activeTools = [])
    ∧ (∀ msgs requested,
        runToolSteps (mkStreamTextConfig "chat-model-reasoning" msgs) requested = [])
    ∧ (∀ m msgs, m ≠ "chat-model-reasoning" →
        (mkStreamTextConfig m msgs).stopWhenStepCount = 5
        ∧ ∀ requested,
            (runToolSteps (mkStreamTextConfig m msgs) requested).length ≤ 5) := by
  refine ⟨fun msgs => by simp [mkStreamTextConfig], fun msgs requested => ?_,
    fun m msgs hm => ⟨by simp [mkStreamTextConfig, hm], fun requested => ?_⟩⟩
  · simp [runToolSteps, mkStreamTextConfig]
  · have h5 : (mkStreamTextConfig m msgs).stopWhenStepCount = 5 := rfl
    calc (runToolSteps (mkStreamTextConfig m msgs) requested).length
        ≤ (mkStreamTextConfig m msgs).stopWhenStepCount := List.length_take_le ..
      _ = 5 := h5

/-- C5 witness: the non-reasoning chat model keeps the budget of 5 and a
run of seven requested web searches executes at most 5 steps. -/
theorem C5_reasoning_no_tools_budget_five_witness :
    (mkStreamTextConfig "chat-model" []).stopWhenStepCount = 5
    ∧ (runToolSteps (mkStreamTextConfig "chat-model" [])
        ["webSearch", "webSearch", "webSearch", "webSearch", "webSearch", "webSearch",
         "webSearch"]).length ≤ 5 := by
  have H := C5_reasoning_no_tools_budget_five.2.2 "chat-model" [] (by decide)
  exact ⟨H.1, H.2 _⟩

/-- C6: a fetched PDF whose extracted text exceeds 12,000 characters is
embedded as a single synthetic text block holding the summarization
instruction followed by exactly the first 12,000 characters of the
text; a PDF whose extraction throws contributes nothing and the request
carries on. -/
theorem C6_pdf_truncation (env : Env) (url : String) (bytes : List Nat) (text : String)
    (hf : env.fetch url = some bytes) (hp : env.pdfParse bytes = some (some text))
    (hlong : 12000 < text.length) :
    normalizeUserPart env (Part.file url "application/pdf")
      = [ContentBlock.text (summaryPrompt (substring0 text 12000))]
    ∧ (substring0 text 12000).length = 12000
    ∧ (∀ env2 url2 bytes2, env2.fetch url2 = some bytes2 → env2.pdfParse bytes2 = none →
        normalizeUserPart env2 (Part.file url2 "application/pdf") = []) := by
  have him : jsStartsWith "application/pdf" "image/" = false := by decide
  refine ⟨by simp [normalizeUserPart, him, hf, hp], ?_, ?_⟩
  · show ((text.toList.take 12000).asString).length = 12000
    have h1 : ((text.toList.take 12000).asString).length = (text.toList.take 12000).length := rfl
    have h2 : text.toList.length = text.length := rfl
    rw [h1, List.length_take, h2]
    omega
  · intro env2 url2 bytes2 hf2 hp2
    simp [normalizeUserPart, him, hf2, hp2]

/-- C6 witness: a 12,001-character extracted text is embedded truncated
to exactly 12,000 characters. -/
theorem C6_pdf_truncation_witness :
    normalizeUserPart longPdfEnv (Part.file "u" "application/pdf")
      = [ContentBlock.text (summaryPrompt (substring0 longPdfText 12000))]
    ∧ (substring0 longPdfText 12000).length = 12000 := by
  have hlen : longPdfText.length = 12001 := by
    show (List.replicate 12001 'a').length = 12001
    exact List.length_replicate ..
  have H := C6_pdf_truncation longPdfEnv "u" [] longPdfText rfl rfl (by omega)
  exact ⟨H.1, H.2.1⟩

/-- The converted message always keeps the input message's role. -/
theorem convertMessage_role (env : Env) (m : ChatMessage) :
    (convertMessage env m).role = m.role := by
  by_cases hr : m.role = Role.user <;> simp [convertMessage, hr]

/-- C10: `buildModelMessages` yields exactly one provider message per
input message, in order and with the same role; a non-user message is
flattened to the concatenation of its text parts; and a user message
all of whose parts fail to normalize still yields one provider message,
with an empty content-block list. -/
theorem C10_buildModelMessages_shape (env : Env) (msgs : List ChatMessage) :
    (buildModelMessages env msgs).length = msgs.length
    ∧ (∀ i : Nat, ((buildModelMessages env msgs)[i]?).map ModelMessage.role
        = (msgs[i]?).map ChatMessage.role)
    ∧ (∀ (i : Nat) (m : ChatMessage), msgs[i]? = some m → m.role ≠ Role.user →
        (buildModelMessages env msgs)[i]?
          = some { role := m.role
                 , content := ModelContent.flat (String.join (m.parts.filterMap Part.textOf)) })
    ∧ (∀ (i : Nat) (m : ChatMessage), msgs[i]? = some m → m.role = Role.user →
        (∀ p ∈ m.parts, normalizeUserPart env p = []) →
        (buildModelMessages env msgs)[i]?
          = some { role := Role.user, content := ModelContent.blocks [] }) := by
  refine ⟨by simp [buildModelMessages], ?_, ?_, ?_⟩
  · intro i
    rw [buildModelMessages, List.getElem?_map]
    cases h : msgs[i]? with
    | none => rfl
    | some m => simp [convertMessage_role]
  · intro i m h hne
    rw [buildModelMessages, List.getElem?_map, h]
    simp [convertMessage, hne]
  · intro i m h hr hall
    rw [buildModelMessages, List.getElem?_map, h]
    have hnil : m.parts.flatMap (normalizeUserPart env) = [] := by
      exact List.flatMap_eq_nil_iff.mpr hall
    simp [convertMessage, hr, hnil]

/-- C10 witness: a user message with only failing attachment parts still
yields one provider message with empty content, and the output length
matches the input length. -/
theorem C10_buildModelMessages_shape_witness :
    (buildModelMessages okEnv [failingAttachmentMsg, assistantMsg])[0]?
      = some { role := Role.user, content := ModelContent.blocks [] }
    ∧ (buildModelMessages okEnv [failingAttachmentMsg, assistantMsg]).length
      = [failingAttachmentMsg, assistantMsg].length := by
  have H := C10_buildModelMessages_shape okEnv [failingAttachmentMsg, assistantMsg]
  exact ⟨H.2.2.2 0 failingAttachmentMsg rfl rfl (by decide), H.1⟩

/-- Whatever the consume outcome, an unparseable or absent usage summary
leaves every token count at its zero initialisation. -/
theorem finalUsage_of_unparseable (cr : Except Unit ConsumeResult)
    (h : usageUnparseable cr) :
    finalUsageData cr = { promptTokens := 0, completionTokens := 0, totalTokens := 0 } := by
  match cr with
  | .error _ => rfl
  | .ok res =>
    rcases res with ⟨u, d, m⟩
    cases u with
    | some uu =>
      obtain ⟨h1, h2, h3, h4, h5, h6, h7, h8⟩ := h
      simp [finalUsageData, applyUsage, h1, h2, h3, h4, h5, h6, h7, h8, Option.orElse]
    | none =>
      cases d with
      | some dd =>
        obtain ⟨h1, h2, h3, h4, h5, h6, h7, h8⟩ := h
        simp [finalUsageData, applyUsage, h1, h2, h3, h4, h5, h6, h7, h8, Option.orElse,
          usageAfterConsume]
      | none =>
        cases m with
        | some mm =>
          obtain ⟨h1, h2, h3, h4, h5, h6, h7, h8⟩ := h
          simp [finalUsageData, applyUsage, h1, h2, h3, h4, h5, h6, h7, h8, Option.orElse,
            usageAfterConsume]
        | none => rfl

/-- C7: when the provider usage summary is absent or carries no
recognized field name, the `onFinish` callback still persists the
assistant/tool batch first, every usage row it writes carries all-zero
token counts, a successful write records exactly the zero row, and a
failing write is swallowed after the assistant messages are already
saved. -/
theorem C7_zero_usage_never_blocks (w : PostWorld)
    (h : usageUnparseable w.consumeResult) (ha : w.saveAssistantResult = .ok ()) :
    (onFinishTrace w).head? = some Event.saveAssistantMessages
    ∧ (∀ p c t, Event.saveUsageLog p c t ∈ onFinishTrace w → p = 0 ∧ c = 0 ∧ t = 0)
    ∧ (w.saveUsageLogResult = .ok () →
        onFinishTrace w = [Event.saveAssistantMessages, Event.saveUsageLog 0 0 0])
    ∧ (∀ e, w.saveUsageLogResult = .error e →
        onFinishTrace w = [Event.saveAssistantMessages]) := by
  have hz := finalUsage_of_unparseable w.consumeResult h
  refine ⟨?_, ?_, ?_, ?_⟩
  · cases hl : w.saveUsageLogResult <;> simp [onFinishTrace, ha, hl]
  · intro p c t hmem
    cases hl : w.saveUsageLogResult with
    | ok v =>
      cases v
      simp [onFinishTrace, ha, hl, hz] at hmem
      exact hmem
    | error e => simp [onFinishTrace, ha, hl, hz] at hmem
  · intro hlok
    simp [onFinishTrace, ha, hlok, hz]
  · intro e he
    simp [onFinishTrace, ha, he, hz]

/-- C7 witness at a concrete world. -/
theorem C7_zero_usage_never_blocks_witness :
    (onFinishTrace baseWorld).head? = some Event.saveAssistantMessages
    ∧ onFinishTrace baseWorld
      = [Event.saveAssistantMessages, Event.saveUsageLog 0 0 0] := by
  have H := C7_zero_usage_never_blocks baseWorld trivial rfl
  exact ⟨H.1, H.2.2.1 rfl⟩

/-- The `onFinish` effects are the assistant batch followed by at most
one usage-log write, or nothing when the batch write itself fails. -/
theorem onFinishTrace_shape (w : PostWorld) :
    onFinishTrace w = []
    ∨ onFinishTrace w = [Event.saveAssistantMessages]
    ∨ ∃ p c t, onFinishTrace w = [Event.saveAssistantMessages, Event.saveUsageLog p c t] := by
  unfold onFinishTrace
  cases w.saveAssistantResult with
  | error e => exact Or.inl rfl
  | ok v =>
    cases w.saveUsageLogResult with
    | ok v2 => exact Or.inr (Or.inr ⟨_, _, _, rfl⟩)
    | error e => exact Or.inr (Or.inl rfl)

/-- Every trace leaving the streaming phase satisfies the POST trace
shape invariant. -/
theorem streamPhase_goodTrace (w : PostWorld) (body : PostRequestBody) (evs0 : List Event)
    (h0 : evs0 = [] ∨ evs0 = [Event.saveChat]) :
    GoodTrace (outTrace (streamPhase w body evs0)) := by
  unfold streamPhase
  cases w.messagesFromDb with
  | error t =>
    left
    rcases h0 with h0 | h0 <;> subst h0 <;> simp [outTrace]
  | ok dbMessages =>
    cases w.saveUserMessageResult with
    | error t =>
      left
      rcases h0 with h0 | h0 <;> subst h0 <;> simp [outTrace]
    | ok v =>
      cases w.createStreamIdResult with
      | error t =>
        left
        rcases h0 with h0 | h0 <;> subst h0 <;> simp [outTrace]
      | ok v2 =>
        right
        exact ⟨evs0, _, onFinishTrace w, rfl, h0, onFinishTrace_shape w⟩

/-- Every trace leaving the try block satisfies the POST trace shape
invariant. -/
theorem postTry_goodTrace (w : PostWorld) (body : PostRequestBody) :
    GoodTrace (outTrace (postTry w body)) := by
  unfold postTry
  repeat' split
  all_goals first
    | exact streamPhase_goodTrace w body [Event.saveChat] (Or.inr rfl)
    | exact streamPhase_goodTrace w body [] (Or.inl rfl)
    | (left; simp [outTrace])

/-- Every trace the POST handler produces satisfies the shape
invariant (the catch block returns the trace of the effects performed
before the throw). -/
theorem POST_goodTrace (w : PostWorld) : GoodTrace (POST w).2 := by
  unfold POST
  rcases hpb : w.parsedBody with _ | body
  · exact Or.inl (by simp)
  · have H := postTry_goodTrace w body
    show GoodTrace (match postTry w body with
      | .ok r => r
      | .error e => catchHandler e).2
    rcases hpt : postTry w body with ⟨t, evs⟩ | ⟨resp, evs⟩
    · rw [hpt] at H
      cases t <;> simpa [outTrace, catchHandler] using H
    · rw [hpt] at H
      simpa [outTrace] using H

/-- C2: in every POST run, if the model was invoked then the user
message had already been persisted strictly before the invocation (so
it survives even when the subsequent model call fails entirely); the
assistant/tool batch is written at most once (one batch, never
incrementally), and only after the model invocation, i.e. only once the
stream has fully drained into `onFinish`. -/
theorem C2_user_persisted_before_invoke (w : PostWorld) :
    ((POST w).2.any Event.isModelInvoke = true →
      Event.saveUserMessage ∈ (POST w).2.takeWhile (fun e => !e.isModelInvoke))
    ∧ (POST w).2.count Event.saveAssistantMessages ≤ 1
    ∧ (Event.saveAssistantMessages ∈ (POST w).2 →
        (POST w).2.any Event.isModelInvoke = true
        ∧ Event.saveAssistantMessages ∉ (POST w).2.takeWhile (fun e => !e.isModelInvoke)) := by
  have H := POST_goodTrace w
  rcases H with ⟨hany, hmem⟩ | ⟨evs0, cfg, fin, htr, h0, hfin⟩
  · refine ⟨fun hcontra => ?_, ?_, fun hcontra => absurd hcontra hmem⟩
    · rw [hany] at hcontra; cases hcontra
    · rw [List.count_eq_zero.mpr hmem]; decide
  · rw [htr]
    rcases h0 with h0 | h0 <;> subst h0 <;>
      rcases hfin with hfin | hfin | ⟨p, c, t, hfin⟩ <;> subst hfin <;>
      simp [List.takeWhile, List.count_cons]

/-- C2 witness: the fully successful world streams, and the user-message
write sits in the trace strictly before the model invocation. -/
theorem C2_user_persisted_before_invoke_witness :
    (POST baseWorld).2.any Event.isModelInvoke = true
    ∧ Event.saveUserMessage ∈ (POST baseWorld).2.takeWhile (fun e => !e.isModelInvoke) := by
  have H := C2_user_persisted_before_invoke baseWorld
  exact ⟨by decide, H.1 (by decide)⟩

end ChatRoute
